import Mathlib

/-!
Verification of the peer-to-peer lending chaincode (loan lifecycle state
machine plus token balance ledger).

The world state is modelled as a map from keys to stored records; loans and
token balances share one key space, exactly as they share the chaincode's
`PutState`/`GetState` namespace. Go `float64` amounts are modelled as exact
rationals (`Rat`); JSON round-trips and host `GetState`/`PutState` I/O
failures are not modelled (the host store is the map itself). Decoding a
stored record of the other kind mirrors Go `json.Unmarshal` into a struct
with no matching fields: it succeeds and yields the zero value.
-/

namespace Lending

structure Loan where
  loanID : String
  borrowerID : String
  lenderID : String
  amount : Rat
  interestRate : Rat
  duration : Int
  status : String
  disbursementDate : String
  repaymentDue : Rat
  remainingBalance : Rat
  collateral : String
  defaulted : Bool
  auditHistory : List String
  createdAt : String
  dueDate : String
deriving DecidableEq

structure TokenBalance where
  account : String
  balance : Rat
deriving DecidableEq

/-- A record stored in the world state: either a loan or a token balance. -/
inductive WSValue where
  | loanVal : Loan → WSValue
  | balVal : TokenBalance → WSValue
deriving DecidableEq

/-- The key-value world state exposed by the transaction context. -/
def World : Type := String → Option WSValue

/-- `PutState`: write a record at a key. -/
def putState (w : World) (k : String) (v : WSValue) : World :=
  fun x => if x = k then some v else w x

/-- Go zero value of `Loan`, produced by `json.Unmarshal` into a `Loan`
whose fields are absent from the stored JSON. -/
def emptyLoan : Loan :=
  { loanID := "", borrowerID := "", lenderID := "", amount := 0,
    interestRate := 0, duration := 0, status := "", disbursementDate := "",
    repaymentDue := 0, remainingBalance := 0, collateral := "",
    defaulted := false, auditHistory := [], createdAt := "", dueDate := "" }

/-- Go zero value of `TokenBalance`. -/
def emptyTokenBalance : TokenBalance := { account := "", balance := 0 }

/-- `json.Unmarshal` of a stored record into a `TokenBalance`: a balance
record decodes to itself, a loan record has no matching fields and decodes
to the zero value. -/
def decodeBalance : WSValue → TokenBalance
  | .balVal b => b
  | .loanVal _ => emptyTokenBalance

/-- `json.Unmarshal` of a stored record into a `Loan`. -/
def decodeLoan : WSValue → Loan
  | .loanVal l => l
  | .balVal _ => emptyLoan

/-- `GetBalance(ctx, account)`. -/
def getBalance (w : World) (account : String) : Except String Rat :=
  match w account with
  | none => .error s!"account {account} does not exist"
  | some v => .ok (decodeBalance v).balance

/-- `UpdateBalance(ctx, account, newBalance)`. -/
def updateBalance (w : World) (account : String) (newBalance : Rat) : World :=
  putState w account (.balVal { account := account, balance := newBalance })

/-- The recipient-balance read inside `TransferTokens`: a missing recipient
(recognised by comparing the error message) is treated as balance 0. -/
def recvBalance (w : World) (toAcc : String) : Except String Rat :=
  match getBalance w toAcc with
  | .ok b => .ok b
  | .error e =>
      if e = s!"account {toAcc} does not exist" then .ok 0 else .error e

/-- `TransferTokens(ctx, from, to, amount)`. -/
def transferTokens (w : World) (fromAcc toAcc : String) (amount : Rat) :
    Except String World :=
  match getBalance w fromAcc with
  | .error e => .error e
  | .ok fromBal =>
    if fromBal < amount then
      .error s!"insufficient funds in account {fromAcc}"
    else
      match recvBalance w toAcc with
      | .error e => .error e
      | .ok toBal =>
          .ok (updateBalance (updateBalance w fromAcc (fromBal - amount))
                toAcc (toBal + amount))

/-- `GetLoan(ctx, loanID)`. -/
def getLoan (w : World) (loanID : String) : Except String Loan :=
  match w loanID with
  | none => .error s!"loan {loanID} does not exist"
  | some v => .ok (decodeLoan v)

/-- `LoanExists(ctx, loanID)`. -/
def loanExists (w : World) (loanID : String) : Bool :=
  (w loanID).isSome

/-- `RequestLoan`. The host transaction context is passed as the
transaction id `txID` and timestamp `txSeconds`; the calendar rendering of
`dueDate` (Go `time.AddDate` plus RFC3339 formatting) is abstracted as the
parameter `fmtDueDate`, since no claim concerns its content. -/
def requestLoan (fmtDueDate : Int → Int → String) (txID : String)
    (txSeconds : Int) (w : World) (loanID borrowerID : String)
    (amount interestRate : Rat) (duration : Int) (collateral : String) :
    Except String World :=
  if loanExists w loanID then
    .error s!"loan {loanID} already exists"
  else
    let loan : Loan :=
      { loanID := loanID
        borrowerID := borrowerID
        lenderID := ""
        amount := amount
        interestRate := interestRate
        duration := duration
        status := "PENDING"
        disbursementDate := ""
        repaymentDue := amount * (1 + interestRate / 100)
        remainingBalance := amount * (1 + interestRate / 100)
        collateral := collateral
        defaulted := false
        auditHistory := [s!"Loan requested by {borrowerID} (TxID: {txID})"]
        createdAt := toString txSeconds
        dueDate := fmtDueDate txSeconds duration }
    .ok (putState w loanID (.loanVal loan))

/-- `ApproveLoan(ctx, loanID, lenderID)`. -/
def approveLoan (txID : String) (w : World) (loanID lenderID : String) :
    Except String World :=
  match getLoan w loanID with
  | .error e => .error e
  | .ok loan =>
    if loan.status ≠ "PENDING" then
      .error s!"loan {loanID} cannot be approved in current status: {loan.status}"
    else
      match getBalance w lenderID with
      | .error e => .error e
      | .ok lenderBal =>
        if lenderBal < loan.amount then
          .error s!"lender {lenderID} has insufficient funds"
        else
          let loan2 := { loan with
            lenderID := lenderID
            status := "APPROVED"
            auditHistory := loan.auditHistory ++
              [s!"Loan approved by {lenderID} (TxID: {txID})"] }
          .ok (putState w loanID (.loanVal loan2))

/-- `DisburseLoan(ctx, loanID)`. -/
def disburseLoan (txID : String) (txSeconds : Int) (w : World)
    (loanID : String) : Except String World :=
  match getLoan w loanID with
  | .error e => .error e
  | .ok loan =>
    if loan.status ≠ "APPROVED" then
      .error s!"loan {loanID} cannot be disbursed in current status: {loan.status}"
    else
      match transferTokens w loan.lenderID loan.borrowerID loan.amount with
      | .error e => .error e
      | .ok w1 =>
        let loan2 := { loan with
          status := "ACTIVE"
          disbursementDate := toString txSeconds
          auditHistory := loan.auditHistory ++
            [s!"Loan disbursed (TxID: {txID})"] }
        .ok (putState w1 loanID (.loanVal loan2))

/-- `RepayLoan(ctx, loanID, amount)`. -/
def repayLoan (txID : String) (w : World) (loanID : String) (amount : Rat) :
    Except String World :=
  match getLoan w loanID with
  | .error e => .error e
  | .ok loan =>
    if loan.status ≠ "ACTIVE" then
      .error s!"loan {loanID} cannot be repaid in current status: {loan.status}"
    else if amount > loan.remainingBalance then
      .error "repayment amount exceeds remaining balance"
    else
      match transferTokens w loan.borrowerID loan.lenderID amount with
      | .error e => .error e
      | .ok w1 =>
        let newRemaining := loan.remainingBalance - amount
        let loan2 := { loan with
          remainingBalance := newRemaining
          status := if newRemaining ≤ 0 then "REPAID" else loan.status
          auditHistory := loan.auditHistory ++
            [s!"Repayment of {amount} (TxID: {txID})"] }
        .ok (putState w1 loanID (.loanVal loan2))

/-- `MarkAsDefaulted(ctx, loanID)`. -/
def markAsDefaulted (txID : String) (w : World) (loanID : String) :
    Except String World :=
  match getLoan w loanID with
  | .error e => .error e
  | .ok loan =>
    if loan.status ≠ "ACTIVE" then
      .error s!"loan {loanID} cannot be defaulted in current status: {loan.status}"
    else
      let loan2 := { loan with
        status := "DEFAULTED"
        defaulted := true
        auditHistory := loan.auditHistory ++
          [s!"Loan marked as defaulted (TxID: {txID})"] }
      .ok (putState w loanID (.loanVal loan2))

/-- `AddCollateral(ctx, loanID, collateral)`. -/
def addCollateral (txID : String) (w : World) (loanID collateral : String) :
    Except String World :=
  match getLoan w loanID with
  | .error e => .error e
  | .ok loan =>
    let loan2 := { loan with
      collateral := collateral
      auditHistory := loan.auditHistory ++
        [s!"Collateral added: {collateral} (TxID: {txID})"] }
    .ok (putState w loanID (.loanVal loan2))

/-- `InitLedger(ctx)`: seed the three named accounts. -/
def initLedger (w : World) : Except String World :=
  .ok (updateBalance (updateBalance (updateBalance w
        "RBI" 1000000) "HDFC" 500000) "SBI" 500000)

/-- One invocation of a state-mutating operation of the contract surface. -/
inductive Op where
  | requestLoan : String → String → Rat → Rat → Int → String → Op
  | approveLoan : String → String → Op
  | disburseLoan : String → Op
  | repayLoan : String → Rat → Op
  | markAsDefaulted : String → Op
  | addCollateral : String → String → Op
  | initLedger : Op
deriving DecidableEq

/-- Dispatch one operation against the world state, given the host-supplied
transaction id and timestamp. -/
def applyOp (fmtDueDate : Int → Int → String) (txID : String)
    (txSeconds : Int) (w : World) : Op → Except String World
  | .requestLoan loanID borrowerID amount interestRate duration collateral =>
      requestLoan fmtDueDate txID txSeconds w loanID borrowerID amount
        interestRate duration collateral
  | .approveLoan loanID lenderID => approveLoan txID w loanID lenderID
  | .disburseLoan loanID => disburseLoan txID txSeconds w loanID
  | .repayLoan loanID amount => repayLoan txID w loanID amount
  | .markAsDefaulted loanID => markAsDefaulted txID w loanID
  | .addCollateral loanID collateral => addCollateral txID w loanID collateral
  | .initLedger => initLedger w

/-- Run a sequence of invocations, each with its own transaction id and
timestamp; the whole run fails as soon as one invocation fails. -/
def runOps (fmtDueDate : Int → Int → String) :
    List (String × Int × Op) → World → Except String World
  | [], w => .ok w
  | (txID, txSeconds, op) :: rest, w =>
      match applyOp fmtDueDate txID txSeconds w op with
      | .error e => .error e
      | .ok w1 => runOps fmtDueDate rest w1

/-- The loan stored at a key, if the key holds a loan record. -/
def loanAt (w : World) (k : String) : Option Loan :=
  match w k with
  | some (.loanVal l) => some l
  | _ => none

/-- The balance stored at a key, if the key holds a balance record. -/
def balAt (w : World) (k : String) : Option Rat :=
  match w k with
  | some (.balVal b) => some b.balance
  | _ => none

/-- Loan projection through an operation result. -/
def resLoanAt (r : Except String World) (k : String) : Option Loan :=
  match r with
  | .ok w => loanAt w k
  | .error _ => none

/-- Balance projection through an operation result. -/
def resBalAt (r : Except String World) (k : String) : Option Rat :=
  match r with
  | .ok w => balAt w k
  | .error _ => none

/-- The loan record built by `RequestLoan` (named for reuse in proofs). -/
def requestedLoan (fmt : Int → Int → String) (txID : String)
    (txSeconds : Int) (loanID borrowerID : String)
    (amount interestRate : Rat) (duration : Int) (collateral : String) :
    Loan :=
  { loanID := loanID
    borrowerID := borrowerID
    lenderID := ""
    amount := amount
    interestRate := interestRate
    duration := duration
    status := "PENDING"
    disbursementDate := ""
    repaymentDue := amount * (1 + interestRate / 100)
    remainingBalance := amount * (1 + interestRate / 100)
    collateral := collateral
    defaulted := false
    auditHistory := [s!"Loan requested by {borrowerID} (TxID: {txID})"]
    createdAt := toString txSeconds
    dueDate := fmt txSeconds duration }

/-- The updated loan record written back by a successful `RepayLoan`. -/
def repaidLoan (txID : String) (l : Loan) (amount : Rat) : Loan :=
  { l with
    remainingBalance := l.remainingBalance - amount
    status := if l.remainingBalance - amount ≤ 0 then "REPAID" else l.status
    auditHistory := l.auditHistory ++
      [s!"Repayment of {amount} (TxID: {txID})"] }

/-- All balance records in the world state are nonnegative. -/
def NonNegBalances (w : World) : Prop :=
  ∀ k b, w k = some (WSValue.balVal b) → 0 ≤ b.balance

/-- All loan records satisfy `0 ≤ remainingBalance ≤ repaymentDue`. -/
def LoanInvariant (w : World) : Prop :=
  ∀ k l, w k = some (WSValue.loanVal l) →
    0 ≤ l.remainingBalance ∧ l.remainingBalance ≤ l.repaymentDue

/-- Amount-positivity side conditions on an invocation: the loan request's
principal and interest rate are nonnegative and any repayment amount is
positive. The chaincode itself never checks these. -/
def OpOK : Op → Prop
  | .requestLoan _ _ amount interestRate _ _ => 0 ≤ amount ∧ 0 ≤ interestRate
  | .repayLoan _ amount => 0 < amount
  | _ => True

/-- One forward edge (or a stutter) of the loan status graph
`PENDING → APPROVED → ACTIVE → {REPAID | DEFAULTED}`. -/
def statusStep (s s2 : String) : Prop :=
  s2 = s ∨
    (s = "PENDING" ∧ s2 = "APPROVED") ∨
    (s = "APPROVED" ∧ s2 = "ACTIVE") ∨
    (s = "ACTIVE" ∧ (s2 = "REPAID" ∨ s2 = "DEFAULTED"))

/-! ### Concrete fixtures for witnesses and counterexamples -/

/-- Trivial due-date renderer for concrete runs. -/
def fmt0 : Int → Int → String := fun _ _ => ""

def emptyWorld : World := fun _ => none

/-- Two accounts A (100) and B (50). -/
def wAB : World := fun k =>
  if k = "A" then some (.balVal { account := "A", balance := 100 })
  else if k = "B" then some (.balVal { account := "B", balance := 50 })
  else none

/-- One account A with balance 0. -/
def wA0 : World := fun k =>
  if k = "A" then some (.balVal { account := "A", balance := 0 })
  else none

/-- One lender account HDFC with balance 500000. -/
def wSeed : World := fun k =>
  if k = "HDFC" then some (.balVal { account := "HDFC", balance := 500000 })
  else none

def loanPending : Loan :=
  { loanID := "L1", borrowerID := "B1", lenderID := "", amount := 1000,
    interestRate := 10, duration := 12, status := "PENDING",
    disbursementDate := "", repaymentDue := 1100, remainingBalance := 1100,
    collateral := "car", defaulted := false,
    auditHistory := ["Loan requested by B1 (TxID: t1)"],
    createdAt := "0", dueDate := "" }

def loanApproved : Loan :=
  { loanPending with lenderID := "HDFC", status := "APPROVED" }

def loanActive : Loan := { loanApproved with status := "ACTIVE" }

/-- An APPROVED loan whose lender account is absent from the store. -/
def loanApprovedGone : Loan := { loanApproved with lenderID := "GONE" }

def wPending : World := fun k =>
  if k = "L1" then some (.loanVal loanPending)
  else if k = "HDFC" then some (.balVal { account := "HDFC", balance := 500000 })
  else none

def wApproved : World := fun k =>
  if k = "L1" then some (.loanVal loanApproved)
  else if k = "HDFC" then some (.balVal { account := "HDFC", balance := 500000 })
  else none

def wApprovedGone : World := fun k =>
  if k = "L1" then some (.loanVal loanApprovedGone)
  else none

def wActive : World := fun k =>
  if k = "L1" then some (.loanVal loanActive)
  else if k = "B1" then some (.balVal { account := "B1", balance := 1000 })
  else if k = "HDFC" then some (.balVal { account := "HDFC", balance := 499000 })
  else none

/-- The world after repaying 600 of the ACTIVE demo loan in `wActive`. -/
def wAfterRepay : World :=
  putState (updateBalance (updateBalance wActive "B1" (1000 - 600))
    "HDFC" (499000 + 600)) "L1" (.loanVal (repaidLoan "t9" loanActive 600))

/-- A successful invocation sequence ending in a repayment of a negative
amount. -/
def badOps : List (String × Int × Op) :=
  [("t1", 0, .requestLoan "L1" "B1" 1000 10 12 "car"),
   ("t2", 0, .approveLoan "L1" "HDFC"),
   ("t3", 0, .disburseLoan "L1"),
   ("t4", 0, .repayLoan "L1" (-100))]

/-- The same lifecycle run with a positive, full repayment. -/
def goodOps : List (String × Int × Op) :=
  [("t1", 0, .requestLoan "L1" "B1" 1000 10 12 "car"),
   ("t2", 0, .approveLoan "L1" "HDFC"),
   ("t3", 0, .disburseLoan "L1"),
   ("t4", 0, .repayLoan "L1" 1100)]

/-! ### Inversion lemmas for the store accessors -/

theorem putState_eq (w : World) (k : String) (v : WSValue) (x : String) :
    putState w k v x = if x = k then some v else w x := rfl

theorem getBalance_ok_elim {w : World} {k : String} {b : Rat}
    (h : getBalance w k = .ok b) :
    ∃ v, w k = some v ∧ (decodeBalance v).balance = b := by
  unfold getBalance at h
  cases hv : w k with
  | none => simp [hv] at h
  | some v =>
      simp only [hv] at h
      injection h with h
      exact ⟨v, rfl, h⟩

theorem getBalance_of_balVal {w : World} {k : String} {tb : TokenBalance}
    (h : w k = some (.balVal tb)) : getBalance w k = .ok tb.balance := by
  unfold getBalance
  rw [h]
  rfl

theorem getBalance_of_none {w : World} {k : String} (h : w k = none) :
    getBalance w k = .error s!"account {k} does not exist" := by
  unfold getBalance
  rw [h]

theorem getLoan_ok_elim {w : World} {k : String} {l : Loan}
    (h : getLoan w k = .ok l) :
    w k = some (.loanVal l) ∨
      ((∃ b, w k = some (.balVal b)) ∧ l = emptyLoan) := by
  unfold getLoan at h
  cases hv : w k with
  | none => simp [hv] at h
  | some v =>
      simp only [hv] at h
      injection h with h
      cases v with
      | loanVal l0 => exact Or.inl (by rw [← h]; rfl)
      | balVal b0 => exact Or.inr ⟨⟨b0, rfl⟩, by rw [← h]; rfl⟩

theorem getLoan_of_loanVal {w : World} {k : String} {l : Loan}
    (h : w k = some (.loanVal l)) : getLoan w k = .ok l := by
  unfold getLoan
  rw [h]
  rfl

theorem recvBalance_ok_elim {w : World} {k : String} {b : Rat}
    (h : recvBalance w k = .ok b) :
    (∃ v, w k = some v ∧ (decodeBalance v).balance = b) ∨
      (w k = none ∧ b = 0) := by
  unfold recvBalance at h
  cases hg : getBalance w k with
  | ok b0 =>
      simp only [hg] at h
      injection h with h
      exact Or.inl (by rw [← h]; exact getBalance_ok_elim hg)
  | error e =>
      simp only [hg] at h
      by_cases he : e = s!"account {k} does not exist"
      · rw [if_pos he] at h
        injection h with h
        refine Or.inr ⟨?_, h.symm⟩
        unfold getBalance at hg
        cases hv : w k with
        | none => rfl
        | some v => simp [hv] at hg
      · rw [if_neg he] at h
        exact absurd h (by simp)

theorem recvBalance_of_none {w : World} {k : String} (h : w k = none) :
    recvBalance w k = .ok 0 := by
  unfold recvBalance
  rw [getBalance_of_none h]
  simp

theorem recvBalance_of_balVal {w : World} {k : String} {tb : TokenBalance}
    (h : w k = some (.balVal tb)) : recvBalance w k = .ok tb.balance := by
  unfold recvBalance
  rw [getBalance_of_balVal h]

/-! ### Inversion lemmas for the operations -/

theorem transferTokens_ok_elim {w w' : World} {f t : String} {a : Rat}
    (h : transferTokens w f t a = .ok w') :
    ∃ fb tb, getBalance w f = .ok fb ∧ ¬ fb < a ∧
      recvBalance w t = .ok tb ∧
      w' = updateBalance (updateBalance w f (fb - a)) t (tb + a) := by
  unfold transferTokens at h
  cases hf : getBalance w f with
  | error e => simp [hf] at h
  | ok fb =>
      simp only [hf] at h
      by_cases hlt : fb < a
      · rw [if_pos hlt] at h; exact absurd h (by simp)
      · rw [if_neg hlt] at h
        cases ht : recvBalance w t with
        | error e => simp [ht] at h
        | ok tb =>
            simp only [ht] at h
            injection h with h
            exact ⟨fb, tb, rfl, hlt, rfl, h.symm⟩

theorem transferTokens_intro {w : World} {f t : String} {a fb tb : Rat}
    (hf : getBalance w f = .ok fb) (hle : a ≤ fb)
    (ht : recvBalance w t = .ok tb) :
    transferTokens w f t a =
      .ok (updateBalance (updateBalance w f (fb - a)) t (tb + a)) := by
  unfold transferTokens
  simp only [hf, ht]
  rw [if_neg (not_lt.mpr hle)]

theorem transferTokens_frame {w w' : World} {f t : String} {a : Rat}
    (h : transferTokens w f t a = .ok w') (id : String) :
    w' id = w id ∨ ∃ b, w' id = some (.balVal b) := by
  obtain ⟨fb, tb, _, _, _, hw⟩ := transferTokens_ok_elim h
  subst hw
  simp only [updateBalance, putState]
  split_ifs
  · exact Or.inr ⟨_, rfl⟩
  · exact Or.inr ⟨_, rfl⟩
  · exact Or.inl rfl

theorem transferTokens_isSome {w w' : World} {f t : String} {a : Rat}
    (h : transferTokens w f t a = .ok w') (id : String)
    (hs : (w id).isSome) : (w' id).isSome := by
  rcases transferTokens_frame h id with he | ⟨b, he⟩ <;> rw [he]
  · exact hs
  · rfl

theorem requestLoan_ok_elim {fmt : Int → Int → String} {txID : String}
    {txSeconds : Int} {w w' : World} {loanID borrowerID : String}
    {amount interestRate : Rat} {duration : Int} {collateral : String}
    (h : requestLoan fmt txID txSeconds w loanID borrowerID amount
        interestRate duration collateral = .ok w') :
    w loanID = none ∧
      w' = putState w loanID (.loanVal
        { loanID := loanID
          borrowerID := borrowerID
          lenderID := ""
          amount := amount
          interestRate := interestRate
          duration := duration
          status := "PENDING"
          disbursementDate := ""
          repaymentDue := amount * (1 + interestRate / 100)
          remainingBalance := amount * (1 + interestRate / 100)
          collateral := collateral
          defaulted := false
          auditHistory := [s!"Loan requested by {borrowerID} (TxID: {txID})"]
          createdAt := toString txSeconds
          dueDate := fmt txSeconds duration }) := by
  unfold requestLoan at h
  by_cases he : loanExists w loanID
  · rw [if_pos he] at h; exact absurd h (by simp)
  · rw [if_neg he] at h
    refine ⟨?_, by injection h with h; exact h.symm⟩
    unfold loanExists at he
    exact Option.not_isSome_iff_eq_none.mp he

theorem approveLoan_ok_elim {txID : String} {w w' : World}
    {loanID lenderID : String}
    (h : approveLoan txID w loanID lenderID = .ok w') :
    ∃ loan lenderBal, getLoan w loanID = .ok loan ∧
      loan.status = "PENDING" ∧
      getBalance w lenderID = .ok lenderBal ∧ ¬ lenderBal < loan.amount ∧
      w' = putState w loanID (.loanVal { loan with
        lenderID := lenderID
        status := "APPROVED"
        auditHistory := loan.auditHistory ++
          [s!"Loan approved by {lenderID} (TxID: {txID})"] }) := by
  unfold approveLoan at h
  cases hl : getLoan w loanID with
  | error e => simp [hl] at h
  | ok loan =>
      simp only [hl] at h
      by_cases hs : loan.status ≠ "PENDING"
      · rw [if_pos hs] at h; exact absurd h (by simp)
      · rw [if_neg hs] at h
        cases hb : getBalance w lenderID with
        | error e => simp [hb] at h
        | ok lenderBal =>
            simp only [hb] at h
            by_cases hlt : lenderBal < loan.amount
            · rw [if_pos hlt] at h; exact absurd h (by simp)
            · rw [if_neg hlt] at h
              injection h with h
              exact ⟨loan, lenderBal, rfl, not_not.mp hs, rfl, hlt, h.symm⟩

theorem disburseLoan_ok_elim {txID : String} {txSeconds : Int} {w w' : World}
    {loanID : String}
    (h : disburseLoan txID txSeconds w loanID = .ok w') :
    ∃ loan w1, getLoan w loanID = .ok loan ∧
      loan.status = "APPROVED" ∧
      transferTokens w loan.lenderID loan.borrowerID loan.amount = .ok w1 ∧
      w' = putState w1 loanID (.loanVal { loan with
        status := "ACTIVE"
        disbursementDate := toString txSeconds
        auditHistory := loan.auditHistory ++
          [s!"Loan disbursed (TxID: {txID})"] }) := by
  unfold disburseLoan at h
  cases hl : getLoan w loanID with
  | error e => simp [hl] at h
  | ok loan =>
      simp only [hl] at h
      by_cases hs : loan.status ≠ "APPROVED"
      · rw [if_pos hs] at h; exact absurd h (by simp)
      · rw [if_neg hs] at h
        cases htr : transferTokens w loan.lenderID loan.borrowerID
            loan.amount with
        | error e => simp [htr] at h
        | ok w1 =>
            simp only [htr] at h
            injection h with h
            exact ⟨loan, w1, rfl, not_not.mp hs, htr, h.symm⟩

theorem repayLoan_ok_elim {txID : String} {w w' : World} {loanID : String}
    {amount : Rat}
    (h : repayLoan txID w loanID amount = .ok w') :
    ∃ loan w1, getLoan w loanID = .ok loan ∧
      loan.status = "ACTIVE" ∧
      ¬ amount > loan.remainingBalance ∧
      transferTokens w loan.borrowerID loan.lenderID amount = .ok w1 ∧
      w' = putState w1 loanID (.loanVal { loan with
        remainingBalance := loan.remainingBalance - amount
        status := if loan.remainingBalance - amount ≤ 0 then "REPAID"
          else loan.status
        auditHistory := loan.auditHistory ++
          [s!"Repayment of {amount} (TxID: {txID})"] }) := by
  unfold repayLoan at h
  cases hl : getLoan w loanID with
  | error e => simp [hl] at h
  | ok loan =>
      simp only [hl] at h
      by_cases hs : loan.status ≠ "ACTIVE"
      · rw [if_pos hs] at h; exact absurd h (by simp)
      · rw [if_neg hs] at h
        by_cases hgt : amount > loan.remainingBalance
        · rw [if_pos hgt] at h; exact absurd h (by simp)
        · rw [if_neg hgt] at h
          cases htr : transferTokens w loan.borrowerID loan.lenderID
              amount with
          | error e => simp [htr] at h
          | ok w1 =>
              simp only [htr] at h
              injection h with h
              exact ⟨loan, w1, rfl, not_not.mp hs, hgt, htr, h.symm⟩

theorem markAsDefaulted_ok_elim {txID : String} {w w' : World}
    {loanID : String}
    (h : markAsDefaulted txID w loanID = .ok w') :
    ∃ loan, getLoan w loanID = .ok loan ∧
      loan.status = "ACTIVE" ∧
      w' = putState w loanID (.loanVal { loan with
        status := "DEFAULTED"
        defaulted := true
        auditHistory := loan.auditHistory ++
          [s!"Loan marked as defaulted (TxID: {txID})"] }) := by
  unfold markAsDefaulted at h
  cases hl : getLoan w loanID with
  | error e => simp [hl] at h
  | ok loan =>
      simp only [hl] at h
      by_cases hs : loan.status ≠ "ACTIVE"
      · rw [if_pos hs] at h; exact absurd h (by simp)
      · rw [if_neg hs] at h
        injection h with h
        exact ⟨loan, rfl, not_not.mp hs, h.symm⟩

theorem addCollateral_ok_elim {txID : String} {w w' : World}
    {loanID collateral : String}
    (h : addCollateral txID w loanID collateral = .ok w') :
    ∃ loan, getLoan w loanID = .ok loan ∧
      w' = putState w loanID (.loanVal { loan with
        collateral := collateral
        auditHistory := loan.auditHistory ++
          [s!"Collateral added: {collateral} (TxID: {txID})"] }) := by
  unfold addCollateral at h
  cases hl : getLoan w loanID with
  | error e => simp [hl] at h
  | ok loan =>
      simp only [hl] at h
      injection h with h
      exact ⟨loan, rfl, h.symm⟩

theorem initLedger_ok_elim {w w' : World} (h : initLedger w = .ok w') :
    w' = updateBalance (updateBalance (updateBalance w
      "RBI" 1000000) "HDFC" 500000) "SBI" 500000 := by
  unfold initLedger at h
  injection h with h
  exact h.symm

theorem putState_self (w : World) (k : String) (v : WSValue) :
    putState w k v k = some v := by
  simp [putState]

theorem putState_other (w : World) (k : String) (v : WSValue) {x : String}
    (h : x ≠ k) : putState w k v x = w x := by
  simp [putState, h]

/-- The recipient read inside `TransferTokens` never fails: the only error
`GetBalance` can produce is exactly the message the transfer path converts
to a zero balance. -/
theorem recvBalance_total (w : World) (k : String) :
    ∃ b, recvBalance w k = .ok b := by
  cases hv : w k with
  | none => exact ⟨0, recvBalance_of_none hv⟩
  | some v =>
      refine ⟨(decodeBalance v).balance, ?_⟩
      unfold recvBalance getBalance
      rw [hv]

theorem transferTokens_loan_eq {w w' : World} {f t : String} {a : Rat}
    (h : transferTokens w f t a = .ok w') {id : String} {l : Loan}
    (hl : w' id = some (.loanVal l)) : w id = some (.loanVal l) := by
  rcases transferTokens_frame h id with he | ⟨b, he⟩
  · rw [← he]; exact hl
  · rw [he] at hl; exact absurd hl (by simp)

/-! ### Claim C10: self-transfer credits the amount -/

/-- C10: for an existing account `acc` and `0 < amount ≤ balance`, the
self-transfer `TransferTokens(acc, acc, amount)` succeeds and leaves `acc`
with its original balance plus `amount`: the credit-side write overwrites
the debit-side write, so a disbursement or repayment whose borrower and
lender coincide creates tokens instead of conserving supply. -/
theorem c10_self_transfer_credits (w : World) (acc : String)
    (tb : TokenBalance) (amount : Rat)
    (hacc : w acc = some (.balVal tb))
    (hpos : 0 < amount) (hle : amount ≤ tb.balance) :
    resBalAt (transferTokens w acc acc amount) acc =
      some (tb.balance + amount) := by
  rw [transferTokens_intro (getBalance_of_balVal hacc) hle
    (recvBalance_of_balVal hacc)]
  simp [resBalAt, balAt, updateBalance, putState]

/-- C10 witness: on the single account A holding 100, a self-transfer of 30
succeeds and leaves A with 130. -/
theorem c10_self_transfer_credits_witness :
    resBalAt (transferTokens wAB "A" "A" 30) "A" = some 130 := by
  rw [c10_self_transfer_credits wAB "A"
    { account := "A", balance := 100 } 30 rfl (by norm_num) (by norm_num)]
  norm_num

/-! ### Claim C9: approval moves no funds -/

/-- C9: a successful `ApproveLoan` on a PENDING loan whose lender balance
covers the amount writes back only the loan record — with exactly
`lenderId`, `status`, and `auditHistory` changed — and leaves every other
key of the world state (in particular every account balance) unchanged. -/
theorem c9_approve_moves_no_funds (txID : String) (w : World)
    (loanID lenderID : String) (l : Loan) (lenderBal : Rat)
    (hl : w loanID = some (.loanVal l)) (hs : l.status = "PENDING")
    (hb : getBalance w lenderID = .ok lenderBal)
    (hge : l.amount ≤ lenderBal) :
    approveLoan txID w loanID lenderID = .ok (putState w loanID (.loanVal
      { l with
        lenderID := lenderID
        status := "APPROVED"
        auditHistory := l.auditHistory ++
          [s!"Loan approved by {lenderID} (TxID: {txID})"] })) ∧
    ∀ acc, acc ≠ loanID →
      putState w loanID (.loanVal
        { l with
          lenderID := lenderID
          status := "APPROVED"
          auditHistory := l.auditHistory ++
            [s!"Loan approved by {lenderID} (TxID: {txID})"] }) acc =
        w acc := by
  constructor
  · unfold approveLoan
    simp only [getLoan_of_loanVal hl, hs]
    rw [if_neg (by simp)]
    simp only [hb]
    rw [if_neg (not_lt.mpr hge)]
  · intro acc hacc
    exact putState_other w loanID _ hacc

/-- C9 witness: approving the demo PENDING loan against lender HDFC leaves
the HDFC balance record untouched. -/
theorem c9_approve_moves_no_funds_witness :
    (putState wPending "L1" (.loanVal
      { loanPending with
        lenderID := "HDFC"
        status := "APPROVED"
        auditHistory := loanPending.auditHistory ++
          [s!"Loan approved by HDFC (TxID: t2)"] })) "HDFC" =
      wPending "HDFC" := by
  exact (c9_approve_moves_no_funds "t2" wPending "L1" "HDFC" loanPending
    500000 rfl rfl rfl (by norm_num [loanPending])).2 "HDFC" (by decide)

/-! ### Claim C6: loan request -/

/-- C6: on a fresh `loanId`, `RequestLoan` persists a PENDING loan with
`repaymentDue = remainingBalance = amount*(1+interestRate/100)` and a
one-entry audit history; on an existing key it fails with the
already-exists error (and, failing, writes nothing). -/
theorem c6_request_loan (fmt : Int → Int → String) (txID : String)
    (txSeconds : Int) (w : World) (loanID borrowerID : String)
    (amount interestRate : Rat) (duration : Int) (collateral : String) :
    (w loanID = none →
      ∃ l, resLoanAt (requestLoan fmt txID txSeconds w loanID borrowerID
          amount interestRate duration collateral) loanID = some l ∧
        l.status = "PENDING" ∧
        l.repaymentDue = amount * (1 + interestRate / 100) ∧
        l.remainingBalance = l.repaymentDue ∧
        l.auditHistory.length = 1) ∧
    ((w loanID).isSome →
      requestLoan fmt txID txSeconds w loanID borrowerID amount interestRate
        duration collateral = .error s!"loan {loanID} already exists") := by
  constructor
  · intro h
    unfold requestLoan
    rw [if_neg (by simp [loanExists, h])]
    refine ⟨requestedLoan fmt txID txSeconds loanID borrowerID amount
      interestRate duration collateral, ?_, rfl, rfl, rfl, rfl⟩
    simp [resLoanAt, loanAt, putState, requestedLoan]
  · intro h
    unfold requestLoan
    rw [if_pos (by simpa [loanExists] using h)]

/-- C6 witness: `RequestLoan("L1","B1",1000,10,12,"car")` on an empty world
yields a PENDING loan with `repaymentDue = remainingBalance = 1100`; the
same request against a world already holding L1 fails. -/
theorem c6_request_loan_witness :
    (∃ l, resLoanAt (requestLoan fmt0 "t1" 0 emptyWorld "L1" "B1" 1000 10 12
        "car") "L1" = some l ∧
      l.status = "PENDING" ∧ l.repaymentDue = 1100 ∧
      l.remainingBalance = 1100 ∧ l.auditHistory.length = 1) ∧
    requestLoan fmt0 "t9" 7 wPending "L1" "B1" 1000 10 12 "car" =
      .error "loan L1 already exists" := by
  constructor
  · obtain ⟨l, h1, h2, h3, h4, h5⟩ :=
      (c6_request_loan fmt0 "t1" 0 emptyWorld "L1" "B1" 1000 10 12
        "car").1 rfl
    refine ⟨l, h1, h2, ?_, ?_, h5⟩
    · rw [h3]; norm_num
    · rw [h4, h3]; norm_num
  · exact (c6_request_loan fmt0 "t9" 7 wPending "L1" "B1" 1000 10 12
      "car").2 rfl

/-! ### Claim C7: disbursement attempts the transfer first -/

/-- C7: on an APPROVED loan, `DisburseLoan` first attempts the
lender→borrower transfer of the loan amount; if the transfer fails the same
error is returned and no loan record is written, and only if it succeeds is
the loan set ACTIVE with the disbursement timestamp recorded and one audit
entry appended, persisted against the post-transfer state. -/
theorem c7_disburse_transfer_first (txID : String) (txSeconds : Int)
    (w : World) (loanID : String) (l : Loan)
    (hl : w loanID = some (.loanVal l)) (hs : l.status = "APPROVED") :
    (∀ e, transferTokens w l.lenderID l.borrowerID l.amount = .error e →
      disburseLoan txID txSeconds w loanID = .error e) ∧
    (∀ w1, transferTokens w l.lenderID l.borrowerID l.amount = .ok w1 →
      disburseLoan txID txSeconds w loanID =
        .ok (putState w1 loanID (.loanVal { l with
          status := "ACTIVE"
          disbursementDate := toString txSeconds
          auditHistory := l.auditHistory ++
            [s!"Loan disbursed (TxID: {txID})"] }))) := by
  constructor
  · intro e htr
    unfold disburseLoan
    simp only [getLoan_of_loanVal hl, hs]
    rw [if_neg (by simp)]
    simp only [htr]
  · intro w1 htr
    unfold disburseLoan
    simp only [getLoan_of_loanVal hl, hs]
    rw [if_neg (by simp)]
    simp only [htr]

/-- C7 witness: disbursing the approved demo loan whose lender record is
missing fails with the lender's not-found error; disbursing the funded one
moves 1000 from HDFC to B1 and activates the loan. -/
theorem c7_disburse_transfer_first_witness :
    disburseLoan "t3" 5 wApprovedGone "L1" =
      .error "account GONE does not exist" ∧
    (resLoanAt (disburseLoan "t3" 5 wApproved "L1") "L1").map Loan.status =
      some "ACTIVE" ∧
    resBalAt (disburseLoan "t3" 5 wApproved "L1") "HDFC" = some 499000 ∧
    resBalAt (disburseLoan "t3" 5 wApproved "L1") "B1" = some 1000 := by
  have hfail := (c7_disburse_transfer_first "t3" 5 wApprovedGone "L1"
    loanApprovedGone rfl rfl).1 "account GONE does not exist" rfl
  have htr : transferTokens wApproved loanApproved.lenderID
      loanApproved.borrowerID loanApproved.amount =
      .ok (updateBalance (updateBalance wApproved "HDFC"
        ((500000 : Rat) - 1000)) "B1" ((0 : Rat) + 1000)) :=
    transferTokens_intro rfl (by norm_num [loanApproved, loanPending])
      (recvBalance_of_none rfl)
  have hok := (c7_disburse_transfer_first "t3" 5 wApproved "L1"
    loanApproved rfl rfl).2 _ htr
  refine ⟨hfail, ?_, ?_, ?_⟩ <;>
    rw [hok] <;>
    simp [resLoanAt, resBalAt, loanAt, balAt, putState, updateBalance,
      wApproved] <;>
    norm_num

/-! ### Claim C8: asymmetric account lookup -/

/-- C8: `GetBalance` on a missing account fails with the not-found error;
`TransferTokens` propagates that failure for a missing source account
(never auto-creating it), but treats a missing destination as balance 0 and
creates its record holding the transferred amount on write. -/
theorem c8_account_lookup_asymmetry (w : World) (acc fromAcc toAcc : String)
    (amount fromBal : Rat) :
    (w acc = none →
      getBalance w acc = .error s!"account {acc} does not exist") ∧
    (w fromAcc = none →
      transferTokens w fromAcc toAcc amount =
        .error s!"account {fromAcc} does not exist") ∧
    (getBalance w fromAcc = .ok fromBal → amount ≤ fromBal →
      w toAcc = none →
      resBalAt (transferTokens w fromAcc toAcc amount) toAcc =
        some (0 + amount)) := by
  refine ⟨fun h => getBalance_of_none h, fun h => ?_, fun hf hle ht => ?_⟩
  · unfold transferTokens
    simp only [getBalance_of_none h]
  · rw [transferTokens_intro hf hle (recvBalance_of_none ht)]
    simp [resBalAt, balAt, updateBalance, putState]

/-- C8 witness: on the two-account world, a query for missing C fails, a
transfer out of missing X fails with X's not-found error, and a transfer of
10 from A to missing C succeeds, creating C with balance 10. -/
theorem c8_account_lookup_asymmetry_witness :
    getBalance wAB "C" = .error "account C does not exist" ∧
    transferTokens wAB "X" "A" 10 = .error "account X does not exist" ∧
    resBalAt (transferTokens wAB "A" "C" 10) "C" = some 10 := by
  obtain ⟨h1, h2, h3⟩ := c8_account_lookup_asymmetry wAB "C" "X" "A" 10 0
  obtain ⟨-, -, h6⟩ := c8_account_lookup_asymmetry wAB "C" "A" "C" 10 100
  refine ⟨h1 rfl, h2 rfl, ?_⟩
  rw [h6 rfl (by norm_num) rfl]
  norm_num

/-! ### Claim C1: balance nonnegativity (corrected: needs amount ≥ 0) -/

theorem getBalance_nonneg {w : World} {k : String} {b : Rat}
    (hw : NonNegBalances w) (h : getBalance w k = .ok b) : 0 ≤ b := by
  obtain ⟨v, hv, hd⟩ := getBalance_ok_elim h
  cases v with
  | balVal tb => exact hd ▸ hw k tb hv
  | loanVal l0 => rw [← hd]; simp [decodeBalance, emptyTokenBalance]

theorem recvBalance_nonneg {w : World} {k : String} {b : Rat}
    (hw : NonNegBalances w) (h : recvBalance w k = .ok b) : 0 ≤ b := by
  rcases recvBalance_ok_elim h with ⟨v, hv, hd⟩ | ⟨-, hb⟩
  · cases v with
    | balVal tb => exact hd ▸ hw k tb hv
    | loanVal l0 => rw [← hd]; simp [decodeBalance, emptyTokenBalance]
  · rw [hb]

theorem nonNegBalances_wAB : NonNegBalances wAB := by
  intro k b hk
  simp only [wAB] at hk
  split at hk
  · injection hk with hk
    injection hk with hk
    rw [← hk]
    norm_num
  · split at hk
    · injection hk with hk
      injection hk with hk
      rw [← hk]
      norm_num
    · simp at hk

/-- C1 counterexample: on a state with every stored balance nonnegative
(account A holds 0), `TransferTokens("A","B",-5)` is not rejected; it
succeeds and leaves the destination balance at -5 < 0. -/
theorem c1_counterexample_negative_credit :
    resBalAt (transferTokens wA0 "A" "B" (-5)) "B" = some (-5) ∧
    ¬ (0 : Rat) ≤ -5 := by
  constructor
  · rw [@transferTokens_intro wA0 "A" "B" (-5) 0 0 rfl (by norm_num)
      (recvBalance_of_none rfl)]
    simp [resBalAt, balAt, updateBalance, putState]
  · norm_num

/-- C1 (amended): restricted to nonnegative transfer amounts the claim
holds: starting from a state whose balances are all nonnegative, a
successful `TransferTokens` leaves every balance — source and destination
included — nonnegative, and a transfer whose amount exceeds the source's
balance is rejected with the insufficient-funds error before any write. -/
theorem c1_transfer_keeps_balances_nonneg (w w' : World) (f t : String)
    (a : Rat) (hw : NonNegBalances w) (ha : 0 ≤ a) :
    (transferTokens w f t a = .ok w' → NonNegBalances w') ∧
    (∀ fb, getBalance w f = .ok fb → fb < a →
      transferTokens w f t a =
        .error s!"insufficient funds in account {f}") := by
  constructor
  · intro h k b hk
    obtain ⟨fb, tb, hf, hnlt, ht, hw'⟩ := transferTokens_ok_elim h
    subst hw'
    have hfb : 0 ≤ fb := getBalance_nonneg hw hf
    have htb : 0 ≤ tb := recvBalance_nonneg hw ht
    unfold updateBalance putState at hk
    by_cases h1 : k = t
    · simp only [h1, if_pos rfl] at hk
      injection hk with hk
      injection hk with hk
      rw [← hk]
      exact add_nonneg htb ha
    · simp only [if_neg h1] at hk
      by_cases h2 : k = f
      · simp only [h2, if_pos rfl] at hk
        injection hk with hk
        injection hk with hk
        rw [← hk]
        exact sub_nonneg.mpr (not_lt.mp hnlt)
      · simp only [if_neg h2] at hk
        exact hw k b hk
  · intro fb hf hlt
    unfold transferTokens
    simp only [hf]
    rw [if_pos hlt]

/-- C1 witness: on balances A=100, B=50 a transfer of 200 out of A is
rejected with the insufficient-funds error. -/
theorem c1_transfer_keeps_balances_nonneg_witness :
    transferTokens wAB "A" "B" 200 =
      .error "insufficient funds in account A" :=
  (c1_transfer_keeps_balances_nonneg wAB wAB "A" "B" 200 nonNegBalances_wAB
    (by norm_num)).2 100 rfl (by norm_num)

/-! ### Claim C2: no positivity check on amounts (corrected) -/

/-- C2 counterexample: `TransferTokens("A","B",-5)` on balances A=100, B=50
does not fail with any error: it succeeds and mutates both account records
(A becomes 105, B becomes 45). -/
theorem c2_counterexample_negative_transfer :
    resBalAt (transferTokens wAB "A" "B" (-5)) "A" = some 105 ∧
    resBalAt (transferTokens wAB "A" "B" (-5)) "B" = some 45 := by
  rw [@transferTokens_intro wAB "A" "B" (-5) 100 50 rfl (by norm_num)
    (recvBalance_of_balVal rfl)]
  constructor <;>
    simp [resBalAt, balAt, updateBalance, putState, wAB] <;> norm_num

/-- C2 (amended): neither `TransferTokens` nor `RepayLoan` checks the sign
of the amount: a transfer of `amount ≤ 0` succeeds whenever the source
account exists with a nonnegative balance, and a repayment of `amount ≤ 0`
on an ACTIVE loan with `amount ≤ remainingBalance` and a solvent borrower
succeeds and increases `remainingBalance` by `-amount`. -/
theorem c2_no_positivity_check (txID : String) (w : World)
    (f t loanID : String) (a : Rat) (l : Loan) (fb : Rat) :
    (getBalance w f = .ok fb → 0 ≤ fb → a ≤ 0 →
      ∃ w1, transferTokens w f t a = .ok w1) ∧
    (w loanID = some (.loanVal l) → l.status = "ACTIVE" → a ≤ 0 →
      getBalance w l.borrowerID = .ok fb → 0 ≤ fb →
      a ≤ l.remainingBalance →
      ∃ l2, resLoanAt (repayLoan txID w loanID a) loanID = some l2 ∧
        l2.remainingBalance = l.remainingBalance - a) := by
  constructor
  · intro hf hfb ha
    obtain ⟨tb, ht⟩ := recvBalance_total w t
    exact ⟨_, transferTokens_intro hf (ha.trans hfb) ht⟩
  · intro hl hs ha hb hfb hle
    obtain ⟨tb, ht⟩ := recvBalance_total w l.lenderID
    have htr := transferTokens_intro hb (ha.trans hfb) ht
    unfold repayLoan
    simp only [getLoan_of_loanVal hl, hs]
    rw [if_neg (by simp), if_neg (not_lt.mpr hle)]
    simp only [htr]
    refine ⟨repaidLoan txID l a, ?_, rfl⟩
    simp [resLoanAt, loanAt, putState, repaidLoan, hs]

/-- C2 witness: the negative transfer of the counterexample world succeeds,
and a repayment of -100 on the ACTIVE demo loan succeeds and moves
`remainingBalance` from 1100 up to 1200. -/
theorem c2_no_positivity_check_witness :
    (∃ w1, transferTokens wAB "A" "B" (-5) = .ok w1) ∧
    (∃ l2, resLoanAt (repayLoan "t9" wActive "L1" (-100)) "L1" = some l2 ∧
      l2.remainingBalance = 1200) := by
  constructor
  · exact (c2_no_positivity_check "t" wAB "A" "B" "L" (-5) emptyLoan
      100).1 rfl (by norm_num) (by norm_num)
  · obtain ⟨l2, h1, h2⟩ := (c2_no_positivity_check "t9" wActive "X" "Y"
      "L1" (-100) loanActive 1000).2 rfl rfl (by norm_num) rfl (by norm_num)
      (by norm_num [loanActive, loanApproved, loanPending])
    refine ⟨l2, h1, ?_⟩
    rw [h2]
    norm_num [loanActive, loanApproved, loanPending]

/-! ### Claim C5: repayment -/

/-- C5: on an ACTIVE loan with `0 < amount ≤ remainingBalance`, a solvent
borrower and pairwise-distinct loan/borrower/lender keys, `RepayLoan`
debits the borrower by `amount`, credits the lender by `amount`, decreases
`remainingBalance` by exactly `amount`, sets status REPAID iff the new
remaining balance is ≤ 0 (staying ACTIVE on a partial repayment), and
appends exactly one audit entry; an amount exceeding `remainingBalance`
fails with the excess-repayment error. -/
theorem c5_repay_correct (txID : String) (w : World) (loanID : String)
    (l : Loan) (amount bb lb : Rat)
    (hl : w loanID = some (.loanVal l)) (hs : l.status = "ACTIVE")
    (hbb : getBalance w l.borrowerID = .ok bb)
    (hlb : recvBalance w l.lenderID = .ok lb)
    (hpos : 0 < amount) (hle : amount ≤ l.remainingBalance)
    (hfunds : amount ≤ bb)
    (hbl : l.borrowerID ≠ l.lenderID)
    (hib : loanID ≠ l.borrowerID) (hil : loanID ≠ l.lenderID) :
    resLoanAt (repayLoan txID w loanID amount) loanID =
      some (repaidLoan txID l amount) ∧
    (repaidLoan txID l amount).remainingBalance =
      l.remainingBalance - amount ∧
    ((repaidLoan txID l amount).status = "REPAID" ↔
      l.remainingBalance - amount ≤ 0) ∧
    ((repaidLoan txID l amount).status = "ACTIVE" ↔
      ¬ l.remainingBalance - amount ≤ 0) ∧
    (repaidLoan txID l amount).auditHistory =
      l.auditHistory ++ [s!"Repayment of {amount} (TxID: {txID})"] ∧
    resBalAt (repayLoan txID w loanID amount) l.borrowerID =
      some (bb - amount) ∧
    resBalAt (repayLoan txID w loanID amount) l.lenderID =
      some (lb + amount) ∧
    (∀ a2, l.remainingBalance < a2 →
      repayLoan txID w loanID a2 =
        .error "repayment amount exceeds remaining balance") := by
  have htr := transferTokens_intro hbb hfunds hlb
  have hrun : repayLoan txID w loanID amount =
      .ok (putState (updateBalance (updateBalance w l.borrowerID
        (bb - amount)) l.lenderID (lb + amount)) loanID
        (.loanVal (repaidLoan txID l amount))) := by
    unfold repayLoan
    simp only [getLoan_of_loanVal hl]
    rw [if_neg (show ¬ l.status ≠ "ACTIVE" by simp [hs]),
      if_neg (not_lt.mpr hle)]
    simp only [htr]
    rfl
  refine ⟨?_, rfl, ?_, ?_, rfl, ?_, ?_, ?_⟩
  · rw [hrun]
    simp [resLoanAt, loanAt, putState]
  · by_cases hc : l.remainingBalance - amount ≤ 0 <;>
      simp [repaidLoan, hc, hs]
  · by_cases hc : l.remainingBalance - amount ≤ 0 <;>
      simp [repaidLoan, hc, hs]
  · rw [hrun]
    simp [resBalAt, balAt, putState, updateBalance, Ne.symm hib, hbl]
  · rw [hrun]
    simp [resBalAt, balAt, putState, updateBalance, Ne.symm hil]
  · intro a2 hgt
    unfold repayLoan
    simp only [getLoan_of_loanVal hl]
    rw [if_neg (show ¬ l.status ≠ "ACTIVE" by simp [hs]), if_pos hgt]

/-- C5 witness: a partial repayment of 600 on the ACTIVE demo loan (B1 owes
1100 to HDFC, B1 holds 1000, HDFC holds 499000) moves the balances to 400
and 499600, leaves `remainingBalance = 500` and status ACTIVE, and a
repayment of 2000 is rejected. -/
theorem c5_repay_correct_witness :
    resLoanAt (repayLoan "t9" wActive "L1" 600) "L1" =
      some (repaidLoan "t9" loanActive 600) ∧
    (repaidLoan "t9" loanActive 600).remainingBalance = 500 ∧
    (repaidLoan "t9" loanActive 600).status = "ACTIVE" ∧
    resBalAt (repayLoan "t9" wActive "L1" 600) "B1" = some 400 ∧
    resBalAt (repayLoan "t9" wActive "L1" 600) "HDFC" = some 499600 ∧
    repayLoan "t9" wActive "L1" 2000 =
      .error "repayment amount exceeds remaining balance" := by
  obtain ⟨h1, h2, h3, h4, h5, h6, h7, h8⟩ :=
    c5_repay_correct "t9" wActive "L1" loanActive 600 1000 499000
      rfl rfl rfl rfl (by norm_num)
      (by norm_num [loanActive, loanApproved, loanPending]) (by norm_num)
      (by decide) (by decide) (by decide)
  refine ⟨h1, ?_, ?_, ?_, ?_, ?_⟩
  · rw [h2]; norm_num [loanActive, loanApproved, loanPending]
  · exact h4.mpr (by norm_num [loanActive, loanApproved, loanPending])
  · norm_num [loanActive, loanApproved, loanPending] at h6
    exact h6
  · norm_num [loanActive, loanApproved, loanPending] at h7
    exact h7
  · exact h8 2000 (by norm_num [loanActive, loanApproved, loanPending])

/-! ### Claim C4: forward-only status transitions -/

theorem loanVal_inj {l l' : Loan}
    (h : some (WSValue.loanVal l) = some (WSValue.loanVal l')) : l = l' := by
  injection h with h
  injection h with h

theorem loan_eq_of_getLoan {w : World} {k : String} {loan l : Loan}
    (hgl : getLoan w k = .ok loan) (hl : w k = some (.loanVal l)) :
    loan = l := by
  unfold getLoan at hgl
  simp only [hl, decodeLoan] at hgl
  injection hgl with hgl
  exact hgl.symm

theorem putLoan_loanAt {w : World} {k : String} {R : Loan} {id : String}
    {l' : Loan}
    (h : putState w k (.loanVal R) id = some (.loanVal l')) :
    (id = k ∧ l' = R) ∨ (id ≠ k ∧ w id = some (.loanVal l')) := by
  by_cases he : id = k
  · left
    refine ⟨he, ?_⟩
    rw [he, putState_self] at h
    exact (loanVal_inj h).symm
  · right
    refine ⟨he, ?_⟩
    rw [← putState_other w k (.loanVal R) he]
    exact h

theorem updateBalance_loanAt {w : World} {k : String} {nb : Rat}
    {id : String} {l' : Loan}
    (h : updateBalance w k nb id = some (.loanVal l')) :
    w id = some (.loanVal l') := by
  unfold updateBalance at h
  by_cases he : id = k
  · rw [he, putState_self] at h
    exact absurd h (by simp)
  · rw [putState_other w k _ he] at h
    exact h

/-- C4: for a loan stored at `loanID`, every successful contract operation
moves its status only along a forward edge (or leaves it unchanged) of
`PENDING → APPROVED → ACTIVE → {REPAID | DEFAULTED}`, and each lifecycle
operation invoked outside its required status fails with the corresponding
invalid-state error (returning an error, so the record is unchanged). -/
theorem c4_status_forward_and_guarded (fmt : Int → Int → String)
    (txID : String) (txSeconds : Int) (w : World) (loanID : String)
    (l : Loan) (hl : w loanID = some (.loanVal l)) :
    (∀ op w' l', applyOp fmt txID txSeconds w op = .ok w' →
      w' loanID = some (.loanVal l') → statusStep l.status l'.status) ∧
    (l.status ≠ "PENDING" → ∀ lenderID, approveLoan txID w loanID lenderID =
      .error
        s!"loan {loanID} cannot be approved in current status: {l.status}") ∧
    (l.status ≠ "APPROVED" → disburseLoan txID txSeconds w loanID =
      .error
        s!"loan {loanID} cannot be disbursed in current status: {l.status}") ∧
    (l.status ≠ "ACTIVE" → ∀ a, repayLoan txID w loanID a =
      .error
        s!"loan {loanID} cannot be repaid in current status: {l.status}") ∧
    (l.status ≠ "ACTIVE" → markAsDefaulted txID w loanID =
      .error
        s!"loan {loanID} cannot be defaulted in current status: {l.status}") := by
  refine ⟨?_, ?_, ?_, ?_, ?_⟩
  · intro op w' l' h hl'
    cases op with
    | requestLoan lid bid am ir du col =>
        simp only [applyOp] at h
        obtain ⟨hnone, hw'⟩ := requestLoan_ok_elim h
        subst hw'
        rcases putLoan_loanAt hl' with ⟨he, -⟩ | ⟨-, hid⟩
        · rw [he, hnone] at hl
          exact absurd hl (by simp)
        · exact Or.inl (congrArg Loan.status
            (loanVal_inj (hl.symm.trans hid)).symm)
    | approveLoan lid lender =>
        simp only [applyOp] at h
        obtain ⟨loan, lb, hgl, hst, hgb, hlt, hw'⟩ := approveLoan_ok_elim h
        subst hw'
        rcases putLoan_loanAt hl' with ⟨he, hR⟩ | ⟨-, hid⟩
        · subst he
          have hll : loan = l := loan_eq_of_getLoan hgl hl
          exact Or.inr (Or.inl ⟨hll ▸ hst, by rw [hR]⟩)
        · exact Or.inl (congrArg Loan.status
            (loanVal_inj (hl.symm.trans hid)).symm)
    | disburseLoan lid =>
        simp only [applyOp] at h
        obtain ⟨loan, w1, hgl, hst, htr, hw'⟩ := disburseLoan_ok_elim h
        subst hw'
        rcases putLoan_loanAt hl' with ⟨he, hR⟩ | ⟨-, hid⟩
        · subst he
          have hll : loan = l := loan_eq_of_getLoan hgl hl
          exact Or.inr (Or.inr (Or.inl ⟨hll ▸ hst, by rw [hR]⟩))
        · have hid2 := transferTokens_loan_eq htr hid
          exact Or.inl (congrArg Loan.status
            (loanVal_inj (hl.symm.trans hid2)).symm)
    | repayLoan lid a =>
        simp only [applyOp] at h
        obtain ⟨loan, w1, hgl, hst, hgt, htr, hw'⟩ := repayLoan_ok_elim h
        subst hw'
        rcases putLoan_loanAt hl' with ⟨he, hR⟩ | ⟨-, hid⟩
        · subst he
          have hll : loan = l := loan_eq_of_getLoan hgl hl
          by_cases hc : loan.remainingBalance - a ≤ 0
          · refine Or.inr (Or.inr (Or.inr ⟨hll ▸ hst, Or.inl ?_⟩))
            rw [hR]
            simp [hc]
          · refine Or.inl ?_
            rw [hR]
            simp only [if_neg hc]
            exact congrArg Loan.status hll
        · have hid2 := transferTokens_loan_eq htr hid
          exact Or.inl (congrArg Loan.status
            (loanVal_inj (hl.symm.trans hid2)).symm)
    | markAsDefaulted lid =>
        simp only [applyOp] at h
        obtain ⟨loan, hgl, hst, hw'⟩ := markAsDefaulted_ok_elim h
        subst hw'
        rcases putLoan_loanAt hl' with ⟨he, hR⟩ | ⟨-, hid⟩
        · subst he
          have hll : loan = l := loan_eq_of_getLoan hgl hl
          exact Or.inr (Or.inr (Or.inr ⟨hll ▸ hst, Or.inr (by rw [hR])⟩))
        · exact Or.inl (congrArg Loan.status
            (loanVal_inj (hl.symm.trans hid)).symm)
    | addCollateral lid col =>
        simp only [applyOp] at h
        obtain ⟨loan, hgl, hw'⟩ := addCollateral_ok_elim h
        subst hw'
        rcases putLoan_loanAt hl' with ⟨he, hR⟩ | ⟨-, hid⟩
        · subst he
          have hll : loan = l := loan_eq_of_getLoan hgl hl
          refine Or.inl ?_
          rw [hR, hll]
        · exact Or.inl (congrArg Loan.status
            (loanVal_inj (hl.symm.trans hid)).symm)
    | initLedger =>
        simp only [applyOp] at h
        have hw' := initLedger_ok_elim h
        subst hw'
        have h1 := updateBalance_loanAt (updateBalance_loanAt
          (updateBalance_loanAt hl'))
        exact Or.inl (congrArg Loan.status
          (loanVal_inj (hl.symm.trans h1)).symm)
  · intro hs lenderID
    unfold approveLoan
    simp only [getLoan_of_loanVal hl]
    rw [if_pos hs]
  · intro hs
    unfold disburseLoan
    simp only [getLoan_of_loanVal hl]
    rw [if_pos hs]
  · intro hs a
    unfold repayLoan
    simp only [getLoan_of_loanVal hl]
    rw [if_pos hs]
  · intro hs
    unfold markAsDefaulted
    simp only [getLoan_of_loanVal hl]
    rw [if_pos hs]

/-- C4 witness: a repayment attempted on the PENDING demo loan fails with
the invalid-state error, and approving it (a forward PENDING→APPROVED
move) satisfies the status-step relation. -/
theorem c4_status_forward_and_guarded_witness :
    repayLoan "t9" wPending "L1" 100 =
      .error "loan L1 cannot be repaid in current status: PENDING" ∧
    markAsDefaulted "t9" wPending "L1" =
      .error "loan L1 cannot be defaulted in current status: PENDING" := by
  obtain ⟨-, -, -, h4, h5⟩ := c4_status_forward_and_guarded fmt0 "t9" 0
    wPending "L1" loanPending rfl
  exact ⟨h4 (by decide) 100, h5 (by decide)⟩

/-! ### Claim C3: remaining-balance invariant (corrected) -/

theorem putState_isSome (w : World) (k : String) (v : WSValue)
    {id : String} (hs : (w id).isSome) : (putState w k v id).isSome := by
  by_cases he : id = k
  · rw [he, putState_self]; rfl
  · rw [putState_other w k v he]; exact hs

theorem LoanInvariant_putLoan {w : World} (hw : LoanInvariant w)
    {k : String} {l2 : Loan}
    (h2 : 0 ≤ l2.remainingBalance ∧ l2.remainingBalance ≤ l2.repaymentDue) :
    LoanInvariant (putState w k (.loanVal l2)) := by
  intro id l hl
  rcases putLoan_loanAt hl with ⟨-, hR⟩ | ⟨-, hid⟩
  · rw [hR]; exact h2
  · exact hw id l hid

theorem LoanInvariant_putBal {w : World} (hw : LoanInvariant w)
    (k : String) (b : TokenBalance) :
    LoanInvariant (putState w k (.balVal b)) := by
  intro id l hl
  by_cases he : id = k
  · rw [he, putState_self] at hl
    exact absurd hl (by simp)
  · rw [putState_other w k _ he] at hl
    exact hw id l hl

theorem LoanInvariant_transfer {w w' : World} {f t : String} {a : Rat}
    (hw : LoanInvariant w) (h : transferTokens w f t a = .ok w') :
    LoanInvariant w' :=
  fun id l hl => hw id l (transferTokens_loan_eq h hl)

/-- One-invocation preservation: under the positivity side conditions, each
operation preserves the loan invariant, never increases any surviving
loan's `remainingBalance`, writes at most a zero remaining balance over a
former balance record, and never deletes a key. -/
theorem applyOp_step (fmt : Int → Int → String) (txID : String)
    (txSeconds : Int) {w w' : World} {op : Op}
    (hw : LoanInvariant w) (hok : OpOK op)
    (h : applyOp fmt txID txSeconds w op = .ok w') :
    LoanInvariant w' ∧
    (∀ id l l', w id = some (.loanVal l) → w' id = some (.loanVal l') →
      l'.remainingBalance ≤ l.remainingBalance) ∧
    (∀ id b l', w id = some (.balVal b) → w' id = some (.loanVal l') →
      l'.remainingBalance ≤ 0) ∧
    (∀ id, (w id).isSome → (w' id).isSome) := by
  cases op with
  | requestLoan lid bid am ir du col =>
      simp only [applyOp] at h
      obtain ⟨hnone, hw'⟩ := requestLoan_ok_elim h
      subst hw'
      obtain ⟨ham, hir⟩ : 0 ≤ am ∧ 0 ≤ ir := hok
      have hnn : 0 ≤ am * (1 + ir / 100) :=
        mul_nonneg ham (add_nonneg zero_le_one (div_nonneg hir (by norm_num)))
      refine ⟨LoanInvariant_putLoan hw ⟨hnn, le_refl _⟩, ?_, ?_, ?_⟩
      · intro id l l' hid hid'
        rcases putLoan_loanAt hid' with ⟨he, -⟩ | ⟨-, h2⟩
        · rw [he, hnone] at hid
          exact absurd hid (by simp)
        · rw [loanVal_inj (hid.symm.trans h2)]
      · intro id b l' hid hid'
        rcases putLoan_loanAt hid' with ⟨he, -⟩ | ⟨-, h2⟩
        · rw [he, hnone] at hid
          exact absurd hid (by simp)
        · exact absurd (hid.symm.trans h2) (by simp)
      · intro id hs
        exact putState_isSome w lid _ hs
  | approveLoan lid lender =>
      simp only [applyOp] at h
      obtain ⟨loan, lb, hgl, hst, hgb, hlt, hw'⟩ := approveLoan_ok_elim h
      subst hw'
      have hbounds : 0 ≤ loan.remainingBalance ∧
          loan.remainingBalance ≤ loan.repaymentDue := by
        rcases getLoan_ok_elim hgl with h1 | ⟨-, h2⟩
        · exact hw lid loan h1
        · exfalso; rw [h2] at hst; simp [emptyLoan] at hst
      refine ⟨LoanInvariant_putLoan hw hbounds, ?_, ?_, ?_⟩
      · intro id l l' hid hid'
        rcases putLoan_loanAt hid' with ⟨he, hR⟩ | ⟨-, h2⟩
        · subst he
          have hll : loan = l := loan_eq_of_getLoan hgl hid
          rw [hR, hll]
        · rw [loanVal_inj (hid.symm.trans h2)]
      · intro id b l' hid hid'
        rcases putLoan_loanAt hid' with ⟨he, -⟩ | ⟨-, h2⟩
        · subst he
          rcases getLoan_ok_elim hgl with h1 | ⟨-, h2⟩
          · rw [hid] at h1; exact absurd h1 (by simp)
          · exfalso; rw [h2] at hst; simp [emptyLoan] at hst
        · exact absurd (hid.symm.trans h2) (by simp)
      · intro id hs
        exact putState_isSome w lid _ hs
  | disburseLoan lid =>
      simp only [applyOp] at h
      obtain ⟨loan, w1, hgl, hst, htr, hw'⟩ := disburseLoan_ok_elim h
      subst hw'
      have hbounds : 0 ≤ loan.remainingBalance ∧
          loan.remainingBalance ≤ loan.repaymentDue := by
        rcases getLoan_ok_elim hgl with h1 | ⟨-, h2⟩
        · exact hw lid loan h1
        · exfalso; rw [h2] at hst; simp [emptyLoan] at hst
      refine ⟨LoanInvariant_putLoan (LoanInvariant_transfer hw htr) hbounds,
        ?_, ?_, ?_⟩
      · intro id l l' hid hid'
        rcases putLoan_loanAt hid' with ⟨he, hR⟩ | ⟨-, h2⟩
        · subst he
          have hll : loan = l := loan_eq_of_getLoan hgl hid
          rw [hR, hll]
        · rw [loanVal_inj
            (hid.symm.trans (transferTokens_loan_eq htr h2))]
      · intro id b l' hid hid'
        rcases putLoan_loanAt hid' with ⟨he, -⟩ | ⟨-, h2⟩
        · subst he
          rcases getLoan_ok_elim hgl with h1 | ⟨-, h2⟩
          · rw [hid] at h1; exact absurd h1 (by simp)
          · exfalso; rw [h2] at hst; simp [emptyLoan] at hst
        · exact absurd (hid.symm.trans (transferTokens_loan_eq htr h2))
            (by simp)
      · intro id hs
        exact putState_isSome w1 lid _ (transferTokens_isSome htr id hs)
  | repayLoan lid a =>
      simp only [applyOp] at h
      obtain ⟨loan, w1, hgl, hst, hgt, htr, hw'⟩ := repayLoan_ok_elim h
      subst hw'
      have hpos : (0 : Rat) < a := hok
      have hbounds : 0 ≤ loan.remainingBalance ∧
          loan.remainingBalance ≤ loan.repaymentDue := by
        rcases getLoan_ok_elim hgl with h1 | ⟨-, h2⟩
        · exact hw lid loan h1
        · exfalso; rw [h2] at hst; simp [emptyLoan] at hst
      have hle : a ≤ loan.remainingBalance := not_lt.mp hgt
      refine ⟨?_, ?_, ?_, ?_⟩
      · refine LoanInvariant_putLoan (LoanInvariant_transfer hw htr)
          ⟨sub_nonneg.mpr hle, ?_⟩
        exact le_trans (sub_le_self _ hpos.le) hbounds.2
      · intro id l l' hid hid'
        rcases putLoan_loanAt hid' with ⟨he, hR⟩ | ⟨-, h2⟩
        · subst he
          have hll : loan = l := loan_eq_of_getLoan hgl hid
          rw [hR, hll]
          exact sub_le_self _ hpos.le
        · rw [loanVal_inj
            (hid.symm.trans (transferTokens_loan_eq htr h2))]
      · intro id b l' hid hid'
        rcases putLoan_loanAt hid' with ⟨he, -⟩ | ⟨-, h2⟩
        · subst he
          rcases getLoan_ok_elim hgl with h1 | ⟨-, h2⟩
          · rw [hid] at h1; exact absurd h1 (by simp)
          · exfalso; rw [h2] at hst; simp [emptyLoan] at hst
        · exact absurd (hid.symm.trans (transferTokens_loan_eq htr h2))
            (by simp)
      · intro id hs
        exact putState_isSome w1 lid _ (transferTokens_isSome htr id hs)
  | markAsDefaulted lid =>
      simp only [applyOp] at h
      obtain ⟨loan, hgl, hst, hw'⟩ := markAsDefaulted_ok_elim h
      subst hw'
      have hbounds : 0 ≤ loan.remainingBalance ∧
          loan.remainingBalance ≤ loan.repaymentDue := by
        rcases getLoan_ok_elim hgl with h1 | ⟨-, h2⟩
        · exact hw lid loan h1
        · exfalso; rw [h2] at hst; simp [emptyLoan] at hst
      refine ⟨LoanInvariant_putLoan hw hbounds, ?_, ?_, ?_⟩
      · intro id l l' hid hid'
        rcases putLoan_loanAt hid' with ⟨he, hR⟩ | ⟨-, h2⟩
        · subst he
          have hll : loan = l := loan_eq_of_getLoan hgl hid
          rw [hR, hll]
        · rw [loanVal_inj (hid.symm.trans h2)]
      · intro id b l' hid hid'
        rcases putLoan_loanAt hid' with ⟨he, -⟩ | ⟨-, h2⟩
        · subst he
          rcases getLoan_ok_elim hgl with h1 | ⟨-, h2⟩
          · rw [hid] at h1; exact absurd h1 (by simp)
          · exfalso; rw [h2] at hst; simp [emptyLoan] at hst
        · exact absurd (hid.symm.trans h2) (by simp)
      · intro id hs
        exact putState_isSome w lid _ hs
  | addCollateral lid col =>
      simp only [applyOp] at h
      obtain ⟨loan, hgl, hw'⟩ := addCollateral_ok_elim h
      subst hw'
      have hbounds : 0 ≤ loan.remainingBalance ∧
          loan.remainingBalance ≤ loan.repaymentDue := by
        rcases getLoan_ok_elim hgl with h1 | ⟨-, h2⟩
        · exact hw lid loan h1
        · rw [h2]
          exact ⟨le_refl 0, le_refl 0⟩
      refine ⟨LoanInvariant_putLoan hw hbounds, ?_, ?_, ?_⟩
      · intro id l l' hid hid'
        rcases putLoan_loanAt hid' with ⟨he, hR⟩ | ⟨-, h2⟩
        · subst he
          have hll : loan = l := loan_eq_of_getLoan hgl hid
          rw [hR, hll]
        · rw [loanVal_inj (hid.symm.trans h2)]
      · intro id b l' hid hid'
        rcases putLoan_loanAt hid' with ⟨he, hR⟩ | ⟨-, h2⟩
        · subst he
          rcases getLoan_ok_elim hgl with h1 | ⟨-, h2⟩
          · rw [hid] at h1; exact absurd h1 (by simp)
          · rw [hR, h2]
            exact le_refl 0
        · exact absurd (hid.symm.trans h2) (by simp)
      · intro id hs
        exact putState_isSome w lid _ hs
  | initLedger =>
      simp only [applyOp] at h
      have hw' := initLedger_ok_elim h
      subst hw'
      refine ⟨?_, ?_, ?_, ?_⟩
      · exact LoanInvariant_putBal (LoanInvariant_putBal
          (LoanInvariant_putBal hw _ _) _ _) _ _
      · intro id l l' hid hid'
        have h2 := updateBalance_loanAt (updateBalance_loanAt
          (updateBalance_loanAt hid'))
        rw [loanVal_inj (hid.symm.trans h2)]
      · intro id b l' hid hid'
        have h2 := updateBalance_loanAt (updateBalance_loanAt
          (updateBalance_loanAt hid'))
        exact absurd (hid.symm.trans h2) (by simp)
      · intro id hs
        exact putState_isSome _ _ _ (putState_isSome _ _ _
          (putState_isSome _ _ _ hs))

/-- Sequence preservation: a successful run of positivity-respecting
operations preserves the loan invariant, never increases any surviving
loan's `remainingBalance`, and never deletes a key. -/
theorem runOps_inv (fmt : Int → Int → String) :
    ∀ (ops : List (String × Int × Op)) (w0 w1 : World),
    LoanInvariant w0 → (∀ x ∈ ops, OpOK x.2.2) →
    runOps fmt ops w0 = .ok w1 →
    LoanInvariant w1 ∧
    (∀ id l l', w0 id = some (.loanVal l) → w1 id = some (.loanVal l') →
      l'.remainingBalance ≤ l.remainingBalance) ∧
    (∀ id b l', w0 id = some (.balVal b) → w1 id = some (.loanVal l') →
      l'.remainingBalance ≤ 0) ∧
    (∀ id, (w0 id).isSome → (w1 id).isSome)
  | [], w0, w1, hw, _, h => by
      unfold runOps at h
      injection h with h
      subst h
      refine ⟨hw, ?_, ?_, fun id hs => hs⟩
      · intro id l l' h1 h2
        rw [loanVal_inj (h1.symm.trans h2)]
      · intro id b l' h1 h2
        exact absurd (h1.symm.trans h2) (by simp)
  | (tid, ts, op) :: rest, w0, w1, hw, hops, h => by
      unfold runOps at h
      cases hstep : applyOp fmt tid ts w0 op with
      | error e => simp [hstep] at h
      | ok wmid =>
          simp only [hstep] at h
          obtain ⟨hw1, hmono, hres, hsome⟩ :=
            applyOp_step fmt tid ts hw (hops (tid, ts, op) (List.mem_cons_self _ _)) hstep
          obtain ⟨hw2, hmono2, hres2, hsome2⟩ :=
            runOps_inv fmt rest wmid w1 hw1
              (fun x hx => hops x (List.mem_cons_of_mem _ hx)) h
          refine ⟨hw2, ?_, ?_, fun id hs => hsome2 id (hsome id hs)⟩
          · intro id l l' h1 h2
            cases hmid : wmid id with
            | none =>
                exact absurd (hsome id (by rw [h1]; rfl))
                  (by rw [hmid]; simp)
            | some v =>
                cases v with
                | loanVal lm =>
                    exact le_trans (hmono2 id lm l' hmid h2)
                      (hmono id l lm h1 hmid)
                | balVal bm =>
                    exact le_trans (hres2 id bm l' hmid h2)
                      (hw id l h1).1
          · intro id b l' h1 h2
            cases hmid : wmid id with
            | none =>
                exact absurd (hsome id (by rw [h1]; rfl))
                  (by rw [hmid]; simp)
            | some v =>
                cases v with
                | loanVal lm =>
                    exact le_trans (hmono2 id lm l' hmid h2)
                      (hres id b lm h1 hmid)
                | balVal bm =>
                    exact hres2 id bm l' hmid h2

/-- C3 counterexample: the successful invocation sequence
request → approve → disburse → repay(-100) ends with the loan at
`remainingBalance = 1200 > 1100 = repaymentDue`, violating the upper bound
and the claimed monotone decrease. -/
theorem c3_counterexample_negative_repay :
    (resLoanAt (runOps fmt0 badOps wSeed) "L1").map
      (fun l => (l.remainingBalance, l.repaymentDue)) = some (1200, 1100) ∧
    ¬ (1200 : Rat) ≤ 1100 := by
  constructor
  · simp [wSeed, badOps, runOps, applyOp, requestLoan, approveLoan,
      disburseLoan, repayLoan, transferTokens, getBalance, getLoan,
      recvBalance, decodeBalance, decodeLoan, updateBalance, putState,
      resLoanAt, loanAt, loanExists, fmt0,
      (by norm_num : (1000 : Rat) * (1 + 10 / 100) = 1100),
      (by norm_num : ¬ (500000 : Rat) < 1000),
      (by norm_num : ¬ (1100 : Rat) < -100),
      (by norm_num : ¬ (1000 : Rat) < -100),
      (by norm_num : (500000 : Rat) - 1000 = 499000),
      (by norm_num : (0 : Rat) + 1000 = 1000),
      (by norm_num : (1000 : Rat) - -100 = 1100),
      (by norm_num : (499000 : Rat) + -100 = 498900),
      (by norm_num : (1100 : Rat) - -100 = 1200),
      (by norm_num : ¬ (1100 : Rat) + 100 ≤ 0),
      (by norm_num : (1100 : Rat) + 100 = 1200)]
  · norm_num

/-- C3 (amended): restricted to nonnegative request parameters and positive
repayment amounts (the positivity the code never checks), every successful
run of contract operations preserves `0 ≤ remainingBalance ≤ repaymentDue`
for every stored loan, never increases a surviving loan's
`remainingBalance`, and a freshly requested loan starts with
`remainingBalance = repaymentDue`. -/
theorem c3_remaining_balance_inv (fmt : Int → Int → String)
    (ops : List (String × Int × Op)) (w0 w1 : World)
    (hw : LoanInvariant w0) (hops : ∀ x ∈ ops, OpOK x.2.2)
    (h : runOps fmt ops w0 = .ok w1) :
    LoanInvariant w1 ∧
    (∀ id l l', w0 id = some (.loanVal l) → w1 id = some (.loanVal l') →
      l'.remainingBalance ≤ l.remainingBalance) ∧
    (∀ txID txSeconds lid bid am ir du col w2,
      requestLoan fmt txID txSeconds w1 lid bid am ir du col = .ok w2 →
      ∀ l2, w2 lid = some (.loanVal l2) →
        l2.remainingBalance = l2.repaymentDue) := by
  obtain ⟨h1, h2, -, -⟩ := runOps_inv fmt ops w0 w1 hw hops h
  refine ⟨h1, h2, ?_⟩
  intro txID txSeconds lid bid am ir du col w2 hreq l2 hl2
  obtain ⟨-, hw2⟩ := requestLoan_ok_elim hreq
  subst hw2
  rw [putState_self] at hl2
  rw [← loanVal_inj hl2]

theorem loanInvariant_wActive : LoanInvariant wActive := by
  intro k l hk
  simp only [wActive] at hk
  split at hk
  · injection hk with hk
    injection hk with hk
    rw [← hk]
    norm_num [loanActive, loanApproved, loanPending]
  · split at hk
    · exact absurd hk (by simp)
    · split at hk
      · exact absurd hk (by simp)
      · exact absurd hk (by simp)

/-- C3 witness: running the single positive repayment of 600 on the ACTIVE
demo loan yields a loan whose remaining balance did not increase. -/
theorem c3_remaining_balance_inv_witness :
    (repaidLoan "t9" loanActive 600).remainingBalance ≤
      loanActive.remainingBalance := by
  have hrep : repayLoan "t9" wActive "L1" 600 = .ok wAfterRepay := by
    have htr := @transferTokens_intro wActive "B1" "HDFC" 600 1000 499000
      rfl (by norm_num) rfl
    unfold repayLoan
    simp only [getLoan_of_loanVal
      (show wActive "L1" = some (.loanVal loanActive) from rfl)]
    rw [if_neg (show ¬ loanActive.status ≠ "ACTIVE" by
        simp [loanActive, loanApproved, loanPending]),
      if_neg (show ¬ (600 : Rat) > loanActive.remainingBalance by
        norm_num [loanActive, loanApproved, loanPending])]
    simp only [show loanActive.borrowerID = "B1" from rfl,
      show loanActive.lenderID = "HDFC" from rfl, htr]
    rfl
  have hrun : runOps fmt0 [("t9", 0, .repayLoan "L1" 600)] wActive =
      .ok wAfterRepay := by
    unfold runOps
    simp only [applyOp, hrep]
    unfold runOps
    rfl
  have hops : ∀ x ∈ [(("t9" : String), (0 : Int),
      Op.repayLoan "L1" 600)], OpOK x.2.2 := by
    intro x hx
    simp only [List.mem_singleton] at hx
    subst hx
    norm_num [OpOK]
  exact (c3_remaining_balance_inv fmt0 [("t9", 0, .repayLoan "L1" 600)]
    wActive wAfterRepay loanInvariant_wActive hops hrun).2.1 "L1"
    loanActive (repaidLoan "t9" loanActive 600) rfl rfl

end Lending
